import Mathlib

/-!
Verification of the `apn_search` repository (Django search-index layer).

The definitions below are shallow embeddings of the source functions named
in their doc comments.  Python strings are modelled as `String` (or
`List Char` where character-level splitting matters), Python dicts as
association lists, raised exceptions as `Except` errors or explicit
exception inductives, and I/O side effects (log calls, queue
acknowledgements, index writes) as values recorded in result structures.
-/

namespace ApnSearch

/-! ## Consumer: `apn_search/consume.py`, `MessageHandler.process_message` -/

/-- Exception classes that can reach `MessageHandler.process_message`.
The first four are the members of `MessageHandler.RetryExceptions`
(consume.py line 24); `other` stands for any exception class outside
that tuple. -/
inductive PyExc where
  | httpError
  | connectionError
  | timeout
  | databaseError
  | other (name : String)
deriving DecidableEq, Repr

/-- Membership test for the `MessageHandler.RetryExceptions` tuple
`(HTTPError, ConnectionError, Timeout, DatabaseError)` (consume.py line 24). -/
def isRetryExc : PyExc → Bool
  | .httpError => true
  | .connectionError => true
  | .timeout => true
  | .databaseError => true
  | .other _ => false

/-- Deserialized message body: `{'identifier': ..., 'remove': ...}`
as unpacked at consume.py lines 39-41. -/
structure Msg where
  identifier : String
  remove : Bool
deriving DecidableEq, Repr

/-- Severity of a `logging` call made by the handler. -/
inductive LogLevel where
  | warning
  | error
  | critical
deriving DecidableEq, Repr

/-- Observable outcome of one `process_message` call: how many times
`update_search_index` ran, whether `time.sleep(1)` ran, the severities
logged in order, and whether `queue.ack(message_id)` was called. -/
structure HandlerTrace where
  updateAttempts : Nat
  slept : Bool
  logs : List LogLevel
  acked : Bool
deriving DecidableEq, Repr

/-- Embedding of `MessageHandler.process_message` (consume.py lines 34-85).

`body` is the result of unpacking the pickled message: `none` models any
exception from `pickle.loads` or the key lookups (lines 38-47).
`attempt1` and `attempt2` are the outcomes of the first and (when reached)
second `update_search_index()` call.  The result is `Except PyExc`: an
`.error` value would mean an exception escaped the handler; every branch
of the source returns normally because of the outer `except Exception`
clause (line 67), so every branch here is `.ok`. -/
def processMessage (body : Option Msg) (attempt1 attempt2 : Except PyExc Unit) :
    Except PyExc HandlerTrace :=
  match body with
  | none =>
      -- lines 42-47: log an error and ack immediately.
      .ok { updateAttempts := 0, slept := false, logs := [.error], acked := true }
  | some _ =>
      match attempt1 with
      | .ok _ =>
          -- first attempt succeeded: fall through to `queue.ack` (line 65).
          .ok { updateAttempts := 1, slept := false, logs := [], acked := true }
      | .error e =>
          if isRetryExc e then
            -- lines 58-63: warn, reset connections, sleep, retry once.
            match attempt2 with
            | .ok _ =>
                .ok { updateAttempts := 2, slept := true, logs := [.warning], acked := true }
            | .error _ =>
                -- outer handler, `retry == True` branch (lines 69-76):
                -- critical + error logs, no ack.
                .ok { updateAttempts := 2, slept := true,
                      logs := [.warning, .critical, .error], acked := false }
          else
            -- outer handler, `retry == False` branch (lines 78-85):
            -- error log, ack anyway.
            .ok { updateAttempts := 1, slept := false, logs := [.error], acked := true }

/-! ## Identifier strings: `apn_search/utils/indexes.py`, `_get_model` -/

/-- Split a character list at the first `'.'`, returning the (dot-free)
head and the remaining tail, or `none` when no dot occurs.  One step of
Python `identifier.split('.', 2)`. -/
def splitFirstDot : List Char → Option (List Char × List Char)
  | [] => none
  | c :: cs =>
      if c = '.' then some ([], cs)
      else
        match splitFirstDot cs with
        | some (a, r) => some (c :: a, r)
        | none => none

/-- Embedding of `identifier.split('.', 2)` followed by unpacking into the
triple `app_label, model, object_pk` (indexes.py line 53).  Python raises
`ValueError` when fewer than three components result; that is the `none`
case here. -/
def parseIdentifier (s : List Char) : Option (List Char × List Char × List Char) :=
  match splitFirstDot s with
  | some (a, rest) =>
      match splitFirstDot rest with
      | some (b, c) => some (a, b, c)
      | none => none
  | none => none

/-- Serialization of the identifier triple as the dot-delimited string
`f"{app_label}.{model}.{object_pk}"` (the identifier format used
throughout the repository). -/
def mkIdentifier (ns nm pk : List Char) : List Char :=
  ns ++ '.' :: nm ++ '.' :: pk

/-- Rebuild the dot-delimited identifier string from a parsed triple. -/
def reconstructIdentifier (t : List Char × List Char × List Char) : List Char :=
  mkIdentifier t.1 t.2.1 t.2.2

/-! ## Schemas and conflict detection: `apn_search/utils/mappings.py` -/

/-- Python values occurring in mapping property dictionaries: strings,
booleans, and `None`. -/
inductive PVal where
  | str (s : String)
  | boolean (b : Bool)
  | null
deriving DecidableEq, Repr

/-- One field's mapping: a Python dict from property name to value
(e.g. `{'type': 'string', 'index': 'analyzed', ...}`). -/
abbrev FieldMapping := List (String × PVal)

/-- Python `d.get(k)`: the value bound to `k`, defaulting to `None`. -/
def dictGet (d : FieldMapping) (k : String) : PVal :=
  match d.find? (fun p => p.1 == k) with
  | some p => p.2
  | none => .null

/-- Python `k in d`. -/
def hasKey (d : FieldMapping) (k : String) : Bool :=
  d.any (fun p => p.1 == k)

/-- The schema shape consumed by `find_conflicts`:
`{'modelresult': {'properties': <field name -> field mapping>}}`
(mappings.py lines 56-57 unwrap exactly these two keys). -/
structure Mapping where
  properties : List (String × FieldMapping)
deriving DecidableEq, Repr

/-- Dict lookup of a field's mapping inside `properties`
(`old_mappings[field_name]`, lines 63-64); only called for shared keys,
so the default branch is never reached there. -/
def getField (props : List (String × FieldMapping)) (k : String) : FieldMapping :=
  match props.find? (fun p => p.1 == k) with
  | some p => p.2
  | none => []

/-- The `EQUIVALENT_VALUES` test (mappings.py lines 45-48 and 73):
`set((old, new))` equals `{'no', None}` or `{'yes', True}`.  It is only
evaluated when `old ≠ new`, so the two-element set comparison amounts to
matching the unordered pair. -/
def equivalentValues (a b : PVal) : Bool :=
  (a == .str "no" && b == .null) || (a == .null && b == .str "no") ||
    (a == .str "yes" && b == .boolean true) || (a == .boolean true && b == .str "yes")

/-- The property names compared by `find_conflicts` (line 66). -/
def conflictProps : List String := ["analyzer", "store", "type"]

/-- Lines 68-76 for a single property: the values differ and the pair is
not a declared equivalence. -/
def propConflicts (oldM newM : FieldMapping) (prop : String) : Bool :=
  let newProp := dictGet newM prop
  let oldProp := dictGet oldM prop
  newProp != oldProp && !(equivalentValues oldProp newProp)

/-- Line 59: `set(old.keys()).intersection(new.keys())`.  Python iterates
the resulting set in an unspecified order; this embedding fixes the old
dict's key order, which does not affect how many times a given field
name is yielded. -/
def sharedFields (olds news : List (String × FieldMapping)) : List String :=
  (olds.map Prod.fst).filter (fun k => news.any (fun p => p.1 == k))

/-- Embedding of `find_conflicts(old_mappings, new_mappings)`
(mappings.py lines 51-76).  The generator is modelled as the list of
field names it yields; a `none` argument models a falsy
(`None`/empty) mapping, for which the generator yields nothing
(line 53).  Note that the inner loop yields the field name once per
conflicting property, so one field can be yielded several times. -/
def findConflicts (oldMappings newMappings : Option Mapping) : List String :=
  match oldMappings, newMappings with
  | some o, some n =>
      (sharedFields o.properties n.properties).flatMap (fun fname =>
        (conflictProps.filter
          (propConflicts (getField o.properties fname) (getField n.properties fname))).map
          (fun _ => fname))
  | _, _ => []

/-! ## Setup failure handling:
`ElasticsearchSearchBackend.setup`, elasticsearch_backend.py lines 150-172 -/

/-- Exception propagating out of the setup failure handler. -/
inductive SetupExc where
  | originalError
  | mappingConflict (field : String)
deriving DecidableEq, Repr

/-- Observable outcome of the `except Exception as error:` block. -/
inductive SetupOutcome where
  | raised (e : SetupExc)
  | loggedOnly
deriving DecidableEq, Repr

/-- Result of evaluating `self.conn.get_mapping()[index_name]`
(line 155): success, a `KeyError` from the index lookup, or a failure of
the remote `get_mapping` call itself. -/
inductive GetMappingResult where
  | ok (m : Mapping)
  | keyError
  | failed
deriving DecidableEq, Repr

/-- Exception raised by the body of the `try` at lines 164-168.  Every
path of that body raises: the first field yielded by `find_conflicts`
raises `HaystackError`; if nothing is yielded, the `for`-`else` clause
re-raises the original error; and if `self.existing_mapping` was never
assigned (modelled by `existing = none`), reading it raises
`AttributeError`. -/
inductive ConflictTryExc where
  | attributeError
  | haystackConflict (field : String)
  | reraisedOriginal
deriving DecidableEq, Repr

/-- Body of the `try` at lines 164-168. -/
def conflictTryBody (existing : Option Mapping) (current : Mapping) : ConflictTryExc :=
  match existing with
  | none => .attributeError
  | some ex =>
      match findConflicts (some ex) (some current) with
      | [] => .reraisedOriginal
      | f :: _ => .haystackConflict f

/-- The `except Exception: raise error` clause at lines 169-170: whatever
exception the `try` body raised — the just-raised `HaystackError`
included — is replaced by the original error. -/
def catchAllReraiseOriginal (_ : ConflictTryExc) : SetupExc :=
  .originalError

/-- Lines 163-170 as a whole: run the `try` body, then the catch-all. -/
def conflictCheckBlock (existing : Option Mapping) (current : Mapping) : SetupExc :=
  catchAllReraiseOriginal (conflictTryBody existing current)

/-- Embedding of the `except Exception as error:` block of
`ElasticsearchSearchBackend.setup` (lines 150-172), entered when
`create_index`/`put_mapping` raised.  `prevExisting` is the value of
`self.existing_mapping` before the block (`none` models the attribute
never having been assigned); `debugOrTest` models
`settings.DEBUG or settings.TEST_MODE`. -/
def setupFailureHandler (debugOrTest silentlyFail : Bool)
    (getMapping : GetMappingResult) (prevExisting : Option Mapping)
    (current : Mapping) : SetupOutcome :=
  -- lines 154-160: refresh `self.existing_mapping`; `none` means the
  -- fallback `raise error` at line 160 fired.
  let refreshed : Option (Option Mapping) :=
    match getMapping with
    | .ok m => some (some m)
    | .keyError => some prevExisting
    | .failed => if silentlyFail then some prevExisting else none
  match refreshed with
  | none => .raised .originalError
  | some existing =>
      if debugOrTest || !silentlyFail then
        .raised (conflictCheckBlock existing current)
      else
        .loggedOnly

/-! ## Response scanning: `ElasticSearch._send_request`,
elasticsearch_backend.py lines 43-62 -/

/-- Parsed JSON values of an ElasticSearch response body. -/
inductive JVal where
  | str (s : String)
  | num (n : Int)
  | boolean (b : Bool)
  | null
  | arr (elems : List JVal)
  | obj (entries : List (String × JVal))

/-- A JSON object, i.e. a Python dict. -/
abbrev JObj := List (String × JVal)

/-- Python `d.get(k)` on a JSON object: `none` when the key is absent. -/
def jGet (entries : JObj) (k : String) : Option JVal :=
  (entries.find? (fun p => p.1 == k)).map Prod.snd

/-- Lines 53-56 for one (dict) item of the `items` array:
`index = item.get('index')`; when it is a dict containing the key
`'error'`, collect `index['error']`. -/
def itemErrors (item : JObj) : List JVal :=
  match jGet item "index" with
  | some (.obj ientries) =>
      match jGet ientries "error" with
      | some err => [err]
      | none => []
  | _ => []

/-- Exceptions the post-processing of `_send_request` can raise. -/
inductive ReqExc where
  | elasticSearchError (errors : List JVal)
  | typeError
  | attributeError

/-- The scan loop at lines 51-56 over the `items` array, collecting the
embedded error values in order.  A non-dict item would raise
`AttributeError` at `item.get` (never the case for well-formed engine
responses); the whole scan runs before the raise decision, so a later
`AttributeError` preempts errors already collected. -/
def collectItemErrors : List JVal → Except ReqExc (List JVal)
  | [] => .ok []
  | item :: rest =>
      match item with
      | .obj entries =>
          match collectItemErrors rest with
          | .ok es => .ok (itemErrors entries ++ es)
          | .error e => .error e
      | _ => .error .attributeError

/-- Shape test used by `raiseBuried`. -/
def jIsStr : JVal → Bool
  | .str _ => true
  | _ => false

/-- The raise at lines 57-60.  Formatting the message evaluates
`'\n'.join(errors)`, which itself raises `TypeError` when a collected
error value is not a string; either way the call fails. -/
def raiseBuried (errors : List JVal) : ReqExc :=
  if errors.all jIsStr then .elasticSearchError errors else .typeError

/-- Embedding of `ElasticSearch._send_request` post-processing (lines
43-62), applied to the parsed response dict returned by the superclass
call: when the response carries a list under `'items'`, scan it for
embedded per-item errors and raise if any were collected; otherwise (and
when no `'items'` list is present) return the response unchanged. -/
def sendRequest (response : JObj) : Except ReqExc JObj :=
  match jGet response "items" with
  | some (.arr items) =>
      match collectItemErrors items with
      | .error e => .error e
      | .ok [] => .ok response
      | .ok (e :: es) => .error (raiseBuried (e :: es))
  | _ => .ok response

/-- Does this item of the `items` array carry an embedded error object,
in the sense scanned for by lines 53-56? -/
def itemHasError : JVal → Bool
  | .obj entries => !(itemErrors entries).isEmpty
  | _ => false

/-- Shape test: is this JSON value an object (Python dict)? -/
def jIsObj : JVal → Bool
  | .obj _ => true
  | _ => false

/-- Well-formedness of the `items` array: every item is a JSON object,
as the engine's bulk responses guarantee. -/
def allObjItems (items : List JVal) : Bool :=
  items.all jIsObj

/-- Concrete bulk-response items used to evaluate the model: the first
item reports a buried error, the second does not. -/
def sampleBulkItems : List JVal :=
  [JVal.obj [("index", JVal.obj [("error", JVal.str "MapperParsingException")])],
   JVal.obj [("index", JVal.obj [("_id", JVal.str "blog.post.42"), ("ok", JVal.boolean true)])]]

/-- Concrete parsed response carrying `sampleBulkItems` under `'items'`. -/
def sampleBulkResponse : JObj :=
  [("took", JVal.num 3), ("items", JVal.arr sampleBulkItems)]

/-! ## Update dispatch: `apn_search/update.py` -/

/-- Argument accepted by `update_object`/`queue_update`: an identifier
string, a `LazyModel` wrapper (identifier plus whether the referenced
row can be materialized — its Python truthiness), or a live model
instance. -/
inductive Item where
  | identStr (s : String)
  | lazyInst (id : String) (present : Bool)
  | modelInst (id : String)
deriving DecidableEq, Repr

/-- The `LazyModel.get_identifier` collaborator (external `lazymodel`
dependency): the canonical identifier string of any accepted argument. -/
def getIdentifier : Item → String
  | .identStr s => s
  | .lazyInst i _ => i
  | .modelInst i => i

/-- Environment of an update: whether the row named by an identifier
still exists in the data store.  `LazyModel(identifier,
cache_backend=read_only_cache)` (update.py line 52) materializes lazily;
the truthiness test at line 54 observes this flag. -/
structure UpdateEnv where
  present : String → Bool

/-- Side effects of the update/enqueue path, in order. -/
inductive UpdateAction where
  | warnMissing (id : String)
  | removeObject (id : String)
  | updateObjectOnIndex (id : String)
  | logEnqueueFailure
  | enqueued (id : String) (remove : Bool)
deriving DecidableEq, Repr

/-- Embedding of `update_object(item, remove)` (update.py lines 31-76).
`get_index(item)` (line 44) resolves the owning index from the model
type and is modelled as succeeding, as the claims concern registered
types.  The body wraps a bare identifier string in a lazy instance when
not removing (lines 46-52), converts the update of a no-longer-existing
object into a removal with a warning naming the identifier (lines
54-58), and then performs either `index.remove_object(identifier)`
(lines 60-64) or `index.update_object(item)` (lines 66-70). -/
def updateObject (env : UpdateEnv) (item0 : Item) (remove0 : Bool) : List UpdateAction :=
  let item1 : Item :=
    match item0 with
    | .identStr s => if !remove0 then .lazyInst s (env.present s) else item0
    | _ => item0
  let missingLazy : Bool :=
    match item1 with
    | .lazyInst _ present => !present
    | _ => false
  if !remove0 && missingLazy then
    [.warnMissing (getIdentifier item1), .removeObject (getIdentifier item1)]
  else if remove0 then
    [.removeObject (getIdentifier item1)]
  else
    [.updateObjectOnIndex (getIdentifier item1)]

/-- Embedding of `queue_update(item, remove)` (update.py lines 80-100).
The message `{'identifier': ..., 'remove': True?}` is pickled and put on
the named queue; `enqueueResult` is the outcome of the
`with message_queue.open(QUEUE_NAME)` / `queue.put(message_body)` block
(lines 92-93).  On any enqueue failure the function logs
(`logging.exception`, lines 95-99) and immediately applies the update
synchronously through `update_object` with the same item and remove
flag (line 100). -/
def queueUpdate (env : UpdateEnv) (item : Item) (remove : Bool)
    (enqueueResult : Except String Unit) : List UpdateAction :=
  match enqueueResult with
  | .ok _ => [.enqueued (getIdentifier item) remove]
  | .error _ => .logEnqueueFailure :: updateObject env item remove

/-! ## Bulk update: `ElasticsearchSearchBackend.update`,
elasticsearch_backend.py lines 199-242 -/

/-- Exception classes document preparation can raise; the first two form
the tuple caught at line 223. -/
inductive PrepExc where
  | requestException
  | elasticSearchError
  | otherExc (name : String)
deriving DecidableEq, Repr

/-- Membership in `(requests.RequestException,
pyelasticsearch.ElasticSearchError)` (line 223). -/
def isCaughtPrep : PrepExc → Bool
  | .requestException => true
  | .elasticSearchError => true
  | .otherExc _ => false

/-- Exception escaping the per-object loop of `update`. -/
inductive UpdateExc where
  | prep (e : PrepExc)
  | attributeError
deriving DecidableEq, Repr

/-- The per-object loop of `update` (lines 211-235).  Each object is
represented by the outcome of preparing its document
(`index.full_prepare(obj)` plus the `from_python` conversion, lines
215-222).  A caught preparation failure re-raises when `silently_fail`
is off (lines 224-225); otherwise the handler formats the log message
`u"%s while preparing object for update" % e.__name__` (line 230) — but
an exception instance has no `__name__` attribute (only its class
does), so this lookup raises `AttributeError`, which the `except`
clause at line 223 does not cover, and it escapes the loop.  An
uncaught exception class escapes directly.  Only on full success does
the list of prepared documents reach `conn.bulk_index` (line 239) —
a `.ok docs` result means the bulk write is submitted with `docs`. -/
def prepLoop (silentlyFail : Bool) :
    List (Except PrepExc String) → Except UpdateExc (List String)
  | [] => .ok []
  | (.ok doc) :: rest =>
      match prepLoop silentlyFail rest with
      | .ok docs => .ok (doc :: docs)
      | .error e => .error e
  | (.error e) :: _ =>
      if isCaughtPrep e then
        if !silentlyFail then .error (.prep e)
        else .error .attributeError
      else .error (.prep e)

/-! ## Schema building: `ElasticsearchSearchBackend.build_schema`,
elasticsearch_backend.py lines 88-108 -/

/-- A haystack `SearchField` as read by the schema builders: name,
semantic type, and indexing hints. -/
structure SearchField where
  index_fieldname : String
  field_type : String
  document : Bool
  indexed : Bool
  stored : Bool
  boost : PVal
deriving DecidableEq, Repr

/-- Mapping built for a single field by the inherited
`ElasticsearchSearchBackend.build_schema` of django-haystack
2.0.0-beta — the `super()` call at elasticsearch_backend.py line 90
resolves to this external dependency method (pinned in setup.py).
Defaults are `{'boost': ..., 'index': 'analyzed', 'store': 'yes',
'type': 'string'}`; the field type selects the engine type; ngram field
types attach an `analyzer` (their engine type stays `string`); the
`indexed`/`stored` hints downgrade `index`/`store`. -/
def haystackFieldMapping (f : SearchField) : FieldMapping :=
  let engineType : String :=
    if f.field_type == "date" || f.field_type == "datetime" then "date"
    else if f.field_type == "integer" then "long"
    else if f.field_type == "float" then "float"
    else if f.field_type == "boolean" then "boolean"
    else if f.field_type == "location" then "geo_point"
    else "string"
  let analyzerEntries : FieldMapping :=
    if f.field_type == "ngram" then [("analyzer", PVal.str "ngram_analyzer")]
    else if f.field_type == "edge_ngram" then [("analyzer", PVal.str "edgengram_analyzer")]
    else []
  let indexMode : String := if f.indexed then "analyzed" else "not_analyzed"
  let storeMode : String := if f.stored then "yes" else "no"
  [("boost", f.boost), ("index", PVal.str indexMode), ("store", PVal.str storeMode),
   ("type", PVal.str engineType)] ++ analyzerEntries

/-- Content field name accumulated by the inherited `build_schema`: the
`index_fieldname` of the (last) field marked `document=True`. -/
def haystackContentFieldName (fields : List SearchField) : String :=
  fields.foldl (fun acc f => if f.document then f.index_fieldname else acc) ""

/-- The inherited haystack `build_schema(fields)`: content field name
plus the field-name → field-mapping dict (modelled as the list of
entries in field order). -/
def haystackBuildSchema (fields : List SearchField) :
    String × List (String × FieldMapping) :=
  (haystackContentFieldName fields,
   fields.map (fun f => (f.index_fieldname, haystackFieldMapping f)))

/-- Python `del d[k]` / `d.pop(k)` on a field mapping. -/
def delKey (d : FieldMapping) (k : String) : FieldMapping :=
  d.filter (fun p => p.1 != k)

/-- The per-mapping adjustment applied inside the `new_version` branch of
`ElasticsearchSearchBackend.build_schema` (lines 92-106): a boolean
field drops a leftover `index='analyzed'` attribute (lines 98-100), and
an ngram-analyzed field moves its analyzer to `index_analyzer` and gets
a `default` search analyzer (lines 104-106). -/
def newVersionAdjust (m0 : FieldMapping) : FieldMapping :=
  let m1 :=
    if dictGet m0 "type" == PVal.str "boolean"
        && dictGet m0 "index" == PVal.str "analyzed" then
      delKey m0 "index"
    else m0
  if dictGet m1 "analyzer" == PVal.str "ngram_analyzer"
      || dictGet m1 "analyzer" == PVal.str "edgengram_analyzer" then
    delKey m1 "analyzer"
      ++ [("index_analyzer", dictGet m1 "analyzer"), ("search_analyzer", PVal.str "default")]
  else m1

/-- Embedding of `ElasticsearchSearchBackend.build_schema(fields)`
(lines 88-108): the inherited haystack schema, post-processed per field
mapping only when the backend is configured with the `NEW_VERSION`
connection option (`self.new_version`, line 81). -/
def buildSchema (newVersion : Bool) (fields : List SearchField) :
    String × List (String × FieldMapping) :=
  let built := haystackBuildSchema fields
  if newVersion then
    (built.1, built.2.map (fun p => (p.1, newVersionAdjust p.2)))
  else built

/-! ## Helper lemmas -/

theorem splitFirstDot_append (l : List Char) :
    ∀ a r, splitFirstDot l = some (a, r) → l = a ++ '.' :: r := by
  induction l with
  | nil => intro a r h; simp [splitFirstDot] at h
  | cons c cs ih =>
      intro a r h
      by_cases hc : c = '.'
      · simp [splitFirstDot, hc] at h
        simp [hc, ← h.1, ← h.2]
      · simp only [splitFirstDot, if_neg hc] at h
        cases hsplit : splitFirstDot cs with
        | none => rw [hsplit] at h; simp at h
        | some p =>
            rw [hsplit] at h
            cases p with
            | mk a0 r0 =>
                simp at h
                have := ih a0 r0 hsplit
                rw [← h.1, ← h.2, this]
                simp

theorem splitFirstDot_head_no_dot (l : List Char) :
    ∀ a r, splitFirstDot l = some (a, r) → '.' ∉ a := by
  induction l with
  | nil => intro a r h; simp [splitFirstDot] at h
  | cons c cs ih =>
      intro a r h
      by_cases hc : c = '.'
      · simp [splitFirstDot, hc] at h
        rw [h.1]
        simp
      · simp only [splitFirstDot, if_neg hc] at h
        cases hsplit : splitFirstDot cs with
        | none => rw [hsplit] at h; simp at h
        | some p =>
            rw [hsplit] at h
            cases p with
            | mk a0 r0 =>
                simp at h
                rw [← h.1]
                intro hmem
                rcases List.mem_cons.mp hmem with h1 | h1
                · exact hc h1.symm
                · exact ih a0 r0 hsplit h1

theorem splitFirstDot_of_mem (l : List Char) (h : '.' ∈ l) :
    ∃ p, splitFirstDot l = some p := by
  induction l with
  | nil => simp at h
  | cons c cs ih =>
      by_cases hc : c = '.'
      · exact ⟨([], cs), by simp [splitFirstDot, hc]⟩
      · have hcs : '.' ∈ cs := by
          rcases List.mem_cons.mp h with h1 | h1
          · exact absurd h1.symm hc
          · exact h1
        obtain ⟨⟨a, r⟩, hp⟩ := ih hcs
        exact ⟨(c :: a, r), by simp [splitFirstDot, if_neg hc, hp]⟩

/-! ## Claim theorems: consumer and identifier round-trip -/

/-- C1: for every queued message that deserializes successfully, if the
first update attempt raises a transient error (HTTP error, connection
error, timeout, or database error), `process_message` retries the update
exactly once after a pause, and the message is acknowledged if and only
if that single retry succeeds; when the retry also fails, the message is
left unacknowledged, a critical-severity log is emitted, and no exception
escapes the handler. -/
theorem consumer_transient_retry (m : Msg) (e : PyExc) (attempt2 : Except PyExc Unit)
    (htrans : isRetryExc e = true) :
    ∃ t, processMessage (some m) (.error e) attempt2 = .ok t ∧
      t.updateAttempts = 2 ∧ t.slept = true ∧
      (t.acked = true ↔ attempt2 = .ok ()) ∧
      (∀ e2, attempt2 = .error e2 →
        t.acked = false ∧ LogLevel.critical ∈ t.logs) := by
  cases attempt2 with
  | ok u =>
      cases u
      refine ⟨{ updateAttempts := 2, slept := true, logs := [.warning], acked := true },
        ?_, rfl, rfl, ?_, ?_⟩
      · simp [processMessage, htrans]
      · simp
      · intro e2 h; simp at h
  | error e2 =>
      refine ⟨{ updateAttempts := 2, slept := true,
                logs := [.warning, .critical, .error], acked := false },
        ?_, rfl, rfl, ?_, ?_⟩
      · simp [processMessage, htrans]
      · simp
      · intro e3 h; exact ⟨rfl, by simp⟩

theorem consumer_transient_retry_witness :
    isRetryExc .connectionError = true ∧
    (∃ t, processMessage (some ⟨"blog.post.42", false⟩)
        (.error .connectionError) (.error .timeout) = .ok t ∧
      t.updateAttempts = 2 ∧ t.slept = true ∧
      (t.acked = true ↔ (Except.error PyExc.timeout : Except PyExc Unit) = .ok ()) ∧
      (∀ e2, (Except.error PyExc.timeout : Except PyExc Unit) = .error e2 →
        t.acked = false ∧ LogLevel.critical ∈ t.logs)) :=
  ⟨rfl, consumer_transient_retry ⟨"blog.post.42", false⟩ .connectionError
    (.error .timeout) rfl⟩

/-- C2: for every received message, if deserialization fails, or if it
succeeds but the first update attempt raises a non-transient error,
`process_message` logs the error, acknowledges the message without
performing any retry (no second update attempt, no sleep), and lets no
exception escape the handler. -/
theorem consumer_permanent_ack (a1 a2 : Except PyExc Unit) :
    (processMessage none a1 a2 =
      .ok { updateAttempts := 0, slept := false, logs := [.error], acked := true }) ∧
    (∀ m e, a1 = .error e → isRetryExc e = false →
      processMessage (some m) a1 a2 =
        .ok { updateAttempts := 1, slept := false, logs := [.error], acked := true }) := by
  refine ⟨rfl, ?_⟩
  intro m e h1 h2
  subst h1
  simp [processMessage, h2]

theorem consumer_permanent_ack_witness :
    (processMessage none (.error (.other "KeyError")) (.ok ()) =
      .ok { updateAttempts := 0, slept := false, logs := [.error], acked := true }) ∧
    (processMessage (some ⟨"blog.post.42", false⟩) (.error (.other "KeyError")) (.ok ()) =
      .ok { updateAttempts := 1, slept := false, logs := [.error], acked := true }) :=
  ⟨(consumer_permanent_ack (.error (.other "KeyError")) (.ok ())).1,
   (consumer_permanent_ack (.error (.other "KeyError")) (.ok ())).2
     ⟨"blog.post.42", false⟩ (.other "KeyError") rfl rfl⟩

/-- C9: for every identifier string of the form
`type-namespace.type-name.primary-key`, splitting on the dot delimiter
into exactly three components (`identifier.split('.', 2)` at
indexes.py line 53) and reconstructing the dot-delimited string yields
the original string. -/
theorem identifier_roundtrip (ns nm pk : List Char) :
    (parseIdentifier (mkIdentifier ns nm pk)).map reconstructIdentifier
      = some (mkIdentifier ns nm pk) := by
  have hmem : '.' ∈ mkIdentifier ns nm pk := by simp [mkIdentifier]
  obtain ⟨⟨a, r⟩, h1⟩ := splitFirstDot_of_mem _ hmem
  have heq := splitFirstDot_append _ a r h1
  have hna := splitFirstDot_head_no_dot _ a r h1
  have hca : a.count '.' = 0 := List.count_eq_zero.mpr hna
  have htotal : 1 ≤ List.count '.' (mkIdentifier ns nm pk) - 1 := by
    simp [mkIdentifier, List.count_append]
    omega
  have hcnt : List.count '.' (mkIdentifier ns nm pk)
      = a.count '.' + (1 + r.count '.') := by
    rw [heq]
    simp [List.count_append]
    omega
  have hr : '.' ∈ r := by
    exact List.count_pos_iff.mp (by omega)
  obtain ⟨⟨b, c⟩, h2⟩ := splitFirstDot_of_mem r hr
  have heq2 := splitFirstDot_append r b c h2
  simp only [parseIdentifier, h1, h2, Option.map_some]
  rw [heq]
  simp [reconstructIdentifier, mkIdentifier, heq2]

/-! ## Claim theorems: conflict detection and setup failure handling -/

theorem count_map_const (l : List String) (x f : String) :
    (l.map (fun _ => x)).count f = if x = f then l.length else 0 := by
  rw [List.map_const', List.count_replicate]
  by_cases hx : x = f
  · simp [hx]
  · simp [hx, fun h : f = x => hx h.symm]

/-- C7 (counterexample): a field shared by both schemas whose `type`
values differ non-equivalently is yielded twice, not exactly once, when
its `analyzer` values also differ — `find_conflicts` yields the field
name once per conflicting property. -/
theorem find_conflicts_counterexample :
    (sharedFields [("f", [("analyzer", PVal.str "a"), ("type", PVal.str "string")])]
        [("f", [("analyzer", PVal.str "b"), ("type", PVal.str "boolean")])] = ["f"]) ∧
    (dictGet [("analyzer", PVal.str "a"), ("type", PVal.str "string")] "type"
      ≠ dictGet [("analyzer", PVal.str "b"), ("type", PVal.str "boolean")] "type") ∧
    (equivalentValues
        (dictGet [("analyzer", PVal.str "a"), ("type", PVal.str "string")] "type")
        (dictGet [("analyzer", PVal.str "b"), ("type", PVal.str "boolean")] "type") = false) ∧
    ¬ ((findConflicts
        (some ⟨[("f", [("analyzer", PVal.str "a"), ("type", PVal.str "string")])]⟩)
        (some ⟨[("f", [("analyzer", PVal.str "b"), ("type", PVal.str "boolean")])]⟩)).count "f"
      = 1) := by
  decide

/-- C7 (amended): for every pair of schemas and every field name shared
by both (appearing once in the shared-field iteration, as dict keys are
unique), `find_conflicts` yields that field name exactly once per
property among `analyzer`, `store`, `type` whose values differ and are
not a declared equivalence pair; in particular, it is yielded at least
once — but not necessarily exactly once — when the `type` values differ
non-equivalently. -/
theorem find_conflicts_per_property (o n : Mapping) (f : String)
    (h : (sharedFields o.properties n.properties).count f = 1) :
    (findConflicts (some o) (some n)).count f =
      (conflictProps.filter
        (propConflicts (getField o.properties f) (getField n.properties f))).length := by
  have key : ∀ l : List String,
      (l.flatMap (fun fname =>
        (conflictProps.filter
          (propConflicts (getField o.properties fname) (getField n.properties fname))).map
          (fun _ => fname))).count f
      = l.count f *
        (conflictProps.filter
          (propConflicts (getField o.properties f) (getField n.properties f))).length := by
    intro l
    induction l with
    | nil => simp
    | cons x xs ih =>
        rw [List.flatMap_cons, List.count_append, ih, List.count_cons]
        by_cases hx : x = f
        · subst hx
          rw [count_map_const]
          simp [Nat.add_mul]
          omega
        · rw [count_map_const]
          have hbeq : (f == x) = false := by
            simp
            exact fun hfx => hx hfx.symm
          simp [hx, hbeq]
  simp only [findConflicts]
  rw [key, h, Nat.one_mul]

theorem find_conflicts_per_property_witness :
    ((sharedFields [("f", [("analyzer", PVal.str "a"), ("type", PVal.str "string")])]
        [("f", [("analyzer", PVal.str "b"), ("type", PVal.str "boolean")])]).count "f" = 1) ∧
    ((findConflicts
        (some ⟨[("f", [("analyzer", PVal.str "a"), ("type", PVal.str "string")])]⟩)
        (some ⟨[("f", [("analyzer", PVal.str "b"), ("type", PVal.str "boolean")])]⟩)).count "f"
      = (conflictProps.filter
          (propConflicts
            (getField [("f", [("analyzer", PVal.str "a"), ("type", PVal.str "string")])] "f")
            (getField [("f", [("analyzer", PVal.str "b"), ("type", PVal.str "boolean")])] "f"))).length) :=
  ⟨by decide,
   find_conflicts_per_property
     ⟨[("f", [("analyzer", PVal.str "a"), ("type", PVal.str "string")])]⟩
     ⟨[("f", [("analyzer", PVal.str "b"), ("type", PVal.str "boolean")])]⟩
     "f" (by decide)⟩

theorem collectItemErrors_ok (items : List JVal) (h : allObjItems items = true) :
    ∃ es, collectItemErrors items = .ok es ∧
      (es = [] ↔ items.any itemHasError = false) := by
  induction items with
  | nil => exact ⟨[], rfl, by simp⟩
  | cons it rest ih =>
      rw [allObjItems, List.all_cons, Bool.and_eq_true] at h
      obtain ⟨h1, h2⟩ := h
      cases it with
      | obj entries =>
          obtain ⟨es, hes, hiff⟩ := ih h2
          refine ⟨itemErrors entries ++ es, ?_, ?_⟩
          · simp [collectItemErrors, hes]
          · cases hie : itemErrors entries with
            | nil => simp [List.any_cons, itemHasError, hie, hiff]
            | cons x xs => simp [List.any_cons, itemHasError, hie]
      | str s => simp [jIsObj] at h1
      | num n => simp [jIsObj] at h1
      | boolean b => simp [jIsObj] at h1
      | null => simp [jIsObj] at h1
      | arr es => simp [jIsObj] at h1

/-- C4: for every remote response carrying a per-item result list (whose
items are JSON objects, as the engine guarantees), if any item carries an
embedded error object then `_send_request` raises even though the
transport-level status was successful; if no item carries an error, the
response data is returned unchanged. -/
theorem send_request_scans_items (response : JObj) (items : List JVal)
    (hitems : jGet response "items" = some (.arr items))
    (hwf : allObjItems items = true) :
    (items.any itemHasError = true → ∃ e, sendRequest response = .error e) ∧
    (items.any itemHasError = false → sendRequest response = .ok response) := by
  obtain ⟨es, hes, hiff⟩ := collectItemErrors_ok items hwf
  constructor
  · intro hany
    cases es with
    | nil =>
        rw [hiff.mp rfl] at hany
        simp at hany
    | cons e0 es0 =>
        exact ⟨raiseBuried (e0 :: es0), by simp [sendRequest, hitems, hes]⟩
  · intro hnone
    have hnil : es = [] := hiff.mpr hnone
    subst hnil
    simp [sendRequest, hitems, hes]

theorem send_request_scans_items_witness :
    (jGet sampleBulkResponse "items" = some (.arr sampleBulkItems)) ∧
    allObjItems sampleBulkItems = true ∧
    sampleBulkItems.any itemHasError = true ∧
    (∃ e, sendRequest sampleBulkResponse = .error e) :=
  ⟨rfl, rfl, rfl,
   (send_request_scans_items sampleBulkResponse sampleBulkItems rfl rfl).1 rfl⟩

/-- C5: for every item and remove flag, if enqueuing the serialized
update message fails, `queue_update` logs the failure and immediately
applies the update synchronously by calling `update_object` with the
same item and remove flag — the trace is exactly the failure log
followed by the synchronous `update_object` trace, with nothing
enqueued. -/
theorem queue_update_fallback (env : UpdateEnv) (item : Item) (remove : Bool)
    (err : String) :
    queueUpdate env item remove (.error err)
      = UpdateAction.logEnqueueFailure :: updateObject env item remove :=
  rfl

/-- C10: for every identifier string passed to `update_object` with
`remove=False`, if the referenced entity no longer exists (the lazily
materialized instance is falsy), the operation is converted into a
removal: a warning naming the identifier is logged, `remove_object` is
invoked with that identifier, and no index write is attempted. -/
theorem update_object_missing_becomes_remove (env : UpdateEnv) (s : String)
    (h : env.present s = false) :
    updateObject env (.identStr s) false
      = [.warnMissing s, .removeObject s] := by
  simp [updateObject, h, getIdentifier]

theorem update_object_missing_becomes_remove_witness :
    (UpdateEnv.mk (fun _ => false)).present "blog.post.42" = false ∧
    updateObject ⟨fun _ => false⟩ (.identStr "blog.post.42") false
      = [.warnMissing "blog.post.42", .removeObject "blog.post.42"] :=
  ⟨rfl, update_object_missing_becomes_remove ⟨fun _ => false⟩ "blog.post.42" rfl⟩

/-- C6 (code evaluation): a batch of three entities where the second
one's preparation raises `ElasticSearchError`.  With `silently_fail` on
(haystack's default), instead of logging the identifier and submitting
the documents of entities 1 and 3, the logging call at
elasticsearch_backend.py line 230 evaluates `e.__name__` — an attribute
exception instances do not have — so `AttributeError` aborts the whole
batch and no bulk write happens; with `silently_fail` off the caught
preparation error is re-raised, likewise aborting the batch.  In
neither configuration are the other two documents submitted, contrary
to the claim. -/
theorem backend_update_batch_aborts :
    (prepLoop true [.ok "doc1", .error .elasticSearchError, .ok "doc3"]
      = .error .attributeError) ∧
    (prepLoop false [.ok "doc1", .error .elasticSearchError, .ok "doc3"]
      = .error (.prep .elasticSearchError)) ∧
    (prepLoop true [.ok "doc1", .ok "doc3"] = .ok ["doc1", "doc3"]) :=
  ⟨rfl, rfl, rfl⟩

/-- C3 (code evaluation): when `create_index`/`put_mapping` fails, the
engine reports a schema whose `title` field conflicts with the current
one (`find_conflicts` yields `title`), and the process is in debug mode
with `silently_fail` off — yet `setup` re-raises the original error
rather than the mapping-conflict `HaystackError`, because the
`except Exception: raise error` clause at lines 169-170 catches the
`HaystackError` raised at line 166.  This contradicts the claim and the
method's own docstring (lines 120-121). -/
theorem setup_conflict_raises_original :
    (findConflicts (some ⟨[("title", [("type", PVal.str "string")])]⟩)
        (some ⟨[("title", [("type", PVal.str "boolean")])]⟩) = ["title"]) ∧
    (setupFailureHandler true false
        (.ok ⟨[("title", [("type", PVal.str "string")])]⟩) none
        ⟨[("title", [("type", PVal.str "boolean")])]⟩
      = .raised .originalError) ∧
    (setupFailureHandler true false
        (.ok ⟨[("title", [("type", PVal.str "string")])]⟩) none
        ⟨[("title", [("type", PVal.str "boolean")])]⟩
      ≠ .raised (.mappingConflict "title")) := by
  decide

/-! ## Claim theorems: schema building -/

theorem newVersionAdjust_boolean_clean (f : SearchField)
    (h : dictGet (newVersionAdjust (haystackFieldMapping f)) "type" = PVal.str "boolean") :
    hasKey (newVersionAdjust (haystackFieldMapping f)) "analyzer" = false ∧
    dictGet (newVersionAdjust (haystackFieldMapping f)) "index" ≠ PVal.str "analyzed" := by
  by_cases h1 : f.field_type = "date"
  · simp [haystackFieldMapping, newVersionAdjust, dictGet, delKey, hasKey, h1] at h
  · by_cases h2 : f.field_type = "datetime"
    · simp [haystackFieldMapping, newVersionAdjust, dictGet, delKey, hasKey, h1, h2] at h
    · by_cases h3 : f.field_type = "integer"
      · simp [haystackFieldMapping, newVersionAdjust, dictGet, delKey, hasKey, h1, h2, h3] at h
      · by_cases h4 : f.field_type = "float"
        · simp [haystackFieldMapping, newVersionAdjust, dictGet, delKey, hasKey,
            h1, h2, h3, h4] at h
        · by_cases h5 : f.field_type = "boolean"
          · by_cases h6 : f.indexed
            · constructor
              · simp [haystackFieldMapping, newVersionAdjust, dictGet, delKey, hasKey, h5, h6]
              · simp [haystackFieldMapping, newVersionAdjust, dictGet, delKey, hasKey, h5, h6]
            · constructor
              · simp [haystackFieldMapping, newVersionAdjust, dictGet, delKey, hasKey, h5, h6]
              · simp [haystackFieldMapping, newVersionAdjust, dictGet, delKey, hasKey, h5, h6]
          · by_cases h7 : f.field_type = "location"
            · simp [haystackFieldMapping, newVersionAdjust, dictGet, delKey, hasKey,
                h1, h2, h3, h4, h5, h7] at h
            · by_cases h8 : f.field_type = "ngram"
              · simp [haystackFieldMapping, newVersionAdjust, dictGet, delKey, hasKey,
                  h1, h2, h3, h4, h5, h7, h8] at h
              · by_cases h9 : f.field_type = "edge_ngram"
                · simp [haystackFieldMapping, newVersionAdjust, dictGet, delKey, hasKey,
                    h1, h2, h3, h4, h5, h7, h8, h9] at h
                · simp [haystackFieldMapping, newVersionAdjust, dictGet, delKey, hasKey,
                    h1, h2, h3, h4, h5, h7, h8, h9] at h

/-- C8 (counterexample): when the backend is not configured with the
`NEW_VERSION` option, `build_schema` leaves haystack's
`index='analyzed'` attribute on a boolean field's mapping, so the claim
fails as stated for a single boolean field definition. -/
theorem build_schema_counterexample :
    ((buildSchema false [⟨"flag", "boolean", false, true, true, PVal.null⟩]).2
      = [("flag",
          [("boost", PVal.null), ("index", PVal.str "analyzed"),
           ("store", PVal.str "yes"), ("type", PVal.str "boolean")])]) ∧
    (dictGet [("boost", PVal.null), ("index", PVal.str "analyzed"),
              ("store", PVal.str "yes"), ("type", PVal.str "boolean")] "type"
      = PVal.str "boolean") ∧
    (dictGet [("boost", PVal.null), ("index", PVal.str "analyzed"),
              ("store", PVal.str "yes"), ("type", PVal.str "boolean")] "index"
      = PVal.str "analyzed") := by
  decide

/-- C8 (amended): when the backend is configured with `NEW_VERSION`,
every field whose resulting mapping has type `boolean` carries no
`analyzer` key and no `index='analyzed'` attribute in the schema
returned by `build_schema`, regardless of the analyzer hints on the
input field definitions; without `NEW_VERSION`, boolean fields keep
haystack's `index='analyzed'` attribute. -/
theorem build_schema_new_version_boolean (fields : List SearchField) :
    ∀ p ∈ (buildSchema true fields).2,
      dictGet p.2 "type" = PVal.str "boolean" →
        hasKey p.2 "analyzer" = false ∧ dictGet p.2 "index" ≠ PVal.str "analyzed" := by
  intro p hp htype
  have hp2 : p ∈ fields.map
      (fun f => (f.index_fieldname, newVersionAdjust (haystackFieldMapping f))) := by
    simpa [buildSchema, haystackBuildSchema, List.map_map, Function.comp] using hp
  obtain ⟨f, _, rfl⟩ := List.mem_map.mp hp2
  exact newVersionAdjust_boolean_clean f htype

theorem build_schema_new_version_boolean_witness :
    (("flag", [("boost", PVal.null), ("store", PVal.str "yes"),
               ("type", PVal.str "boolean")])
      ∈ (buildSchema true [⟨"flag", "boolean", false, true, true, PVal.null⟩]).2) ∧
    (dictGet [("boost", PVal.null), ("store", PVal.str "yes"),
              ("type", PVal.str "boolean")] "type" = PVal.str "boolean") ∧
    (hasKey [("boost", PVal.null), ("store", PVal.str "yes"),
             ("type", PVal.str "boolean")] "analyzer" = false ∧
     dictGet [("boost", PVal.null), ("store", PVal.str "yes"),
              ("type", PVal.str "boolean")] "index" ≠ PVal.str "analyzed") :=
  ⟨by decide, by decide,
   build_schema_new_version_boolean
     [⟨"flag", "boolean", false, true, true, PVal.null⟩]
     ("flag", [("boost", PVal.null), ("store", PVal.str "yes"),
               ("type", PVal.str "boolean")])
     (by decide) (by decide)⟩

end ApnSearch
